import Mathlib

/-!
Verification development for the LSFP-15 market-signal pipeline and
trade-simulation engine.

All price/volume quantities are modelled as rationals (the Python source
uses floats; the algorithms are exact arithmetic plus comparisons, so ℚ is
the faithful idealisation).  Python dicts keyed by symbol are modelled as
association lists, Python lists as Lean lists.  Each definition below is a
direct transcription of the correspondingly named Python function.
-/

namespace SWB

/-- Trade/pattern direction, the `'SHORT'`/`'LONG'` strings of the source. -/
inductive Dir where
  | SHORT
  | LONG
deriving DecidableEq, Repr

/-- A candle record as stored in `CandleCache` (the fields the strategy
reads; `open_` is the Python key `open`). -/
structure Candle where
  open_ : ℚ
  high : ℚ
  low : ℚ
  close : ℚ
  volume : ℚ
deriving DecidableEq, Repr

instance : Inhabited Candle := ⟨⟨0, 0, 0, 0, 0⟩⟩

/-- The strategy parameters used by the components under verification
(`StrategyConfig` in `config.py`, restricted to the fields those
components read). -/
structure StrategyConfig where
  sweep_min_atr : ℚ
  wick_body_r : ℚ
  oi_delta_min_percent : ℚ
  sl_atr_min : ℚ
  sl_atr_max : ℚ
  sl_max_percent : ℚ
  tp1_r : ℚ
  tp1_percent : ℚ
  tp2_min_percent : ℚ
  tp2_max_percent : ℚ
  tp2_r_min : ℚ
  tp2_r_max : ℚ
  time_stop_bars : ℕ
  time_stop_bars_max : ℕ
  time_stop_min_r : ℚ
  min_rr_to_zone : ℚ
deriving DecidableEq, Repr

/-- The default values of `StrategyConfig` in `config.py`. -/
def defaultConfig : StrategyConfig where
  sweep_min_atr := 0.05
  wick_body_r := 0.5
  oi_delta_min_percent := -0.5
  sl_atr_min := 0.15
  sl_atr_max := 0.25
  sl_max_percent := 2.0
  tp1_r := 1.0
  tp1_percent := 2.0
  tp2_min_percent := 3.0
  tp2_max_percent := 5.0
  tp2_r_min := 2.0
  tp2_r_max := 3.0
  time_stop_bars := 6
  time_stop_bars_max := 8
  time_stop_min_r := 0.5
  min_rr_to_zone := 1.5

/-! ## Open-interest cache (`OICache.calculate_oi_delta`) -/

/-- `OICache.calculate_oi_delta`: the open-interest history is the list of
the stored samples' `value` fields, oldest first (the deque order).
`history[-periods]` is index `length - periods`, `history[-1]` is the last
element; both are total here via `getD` (the indices are in range exactly
when `periods ≥ 1` and the length guard passed, matching Python). -/
def calculate_oi_delta (history : List ℚ) (periods : ℕ) : Option ℚ :=
  if history.length < periods then
    none
  else
    let old_oi := history.getD (history.length - periods) 0
    let new_oi := history.getD (history.length - 1) 0
    if old_oi = 0 then
      none
    else
      some ((new_oi - old_oi) / old_oi * 100)

/-! ## Virtual trade engine (`VirtualTrader`) -/

/-- The exit-reason strings returned by `_check_exit_conditions` /
passed to `close_trade`. -/
inductive ExitReason where
  | TP1
  | TP2
  | SL
  | TIME_STOP
  | TIME_STOP_MAX
deriving DecidableEq, Repr

/-- Trade status (`'OPEN'` / `'CLOSED'`). -/
inductive TradeStatus where
  | OPEN
  | CLOSED
deriving DecidableEq, Repr

/-- A virtual-trade record: the `position_data` fields plus the lifecycle
fields added by `open_trade` and mutated by `update_trade`/`close_trade`. -/
structure Trade where
  symbol : String
  direction : Dir
  entry_price : ℚ
  stop_loss : ℚ
  take_profit_1 : ℚ
  take_profit_2 : ℚ
  risk_percent : ℚ
  risk_distance : ℚ
  opened_at : ℚ
  bars_in_trade : ℕ
  current_price : ℚ
  pnl_percent : ℚ
  highest_r : ℚ
  status : TradeStatus
  exit_reason : Option ExitReason
  exit_price : Option ℚ
  closed_at : Option ℚ
deriving DecidableEq, Repr

/-- `VirtualTrader._calculate_pnl`. -/
def calculate_pnl (trade : Trade) (current_price : ℚ) : ℚ :=
  match trade.direction with
  | .SHORT => (trade.entry_price - current_price) / trade.entry_price * 100
  | .LONG => (current_price - trade.entry_price) / trade.entry_price * 100

/-- The TP2/TP1/SL `elif` chain of `VirtualTrader._check_exit_conditions`
(the `tp2_hit`/`tp1_hit`/`sl_hit` flags resolved to the reason they
produce). -/
def price_exit (trade : Trade) (current_price : ℚ) : Option ExitReason :=
  match trade.direction with
  | .SHORT =>
    if current_price ≤ trade.take_profit_2 then some .TP2
    else if current_price ≤ trade.take_profit_1 then some .TP1
    else if trade.stop_loss ≤ current_price then some .SL
    else none
  | .LONG =>
    if trade.take_profit_2 ≤ current_price then some .TP2
    else if trade.take_profit_1 ≤ current_price then some .TP1
    else if current_price ≤ trade.stop_loss then some .SL
    else none

/-- `VirtualTrader._check_exit_conditions`: the price-level chain first,
then the soft time stop (bar count at the soft threshold with the R
high-water mark below the minimum), then the hard time stop. -/
def check_exit_conditions (cfg : StrategyConfig) (trade : Trade)
    (current_price : ℚ) : Option ExitReason :=
  match price_exit trade current_price with
  | some r => some r
  | none =>
    if cfg.time_stop_bars ≤ trade.bars_in_trade ∧
        trade.highest_r < cfg.time_stop_min_r then
      some .TIME_STOP
    else if cfg.time_stop_bars_max ≤ trade.bars_in_trade then
      some .TIME_STOP_MAX
    else
      none

/-- Whether one of the three price-level exits fires for the trade at the
given price (the disjunction of the TP2/TP1/SL comparisons of
`_check_exit_conditions`). -/
def priceExitHit (trade : Trade) (current_price : ℚ) : Prop :=
  match trade.direction with
  | .SHORT => current_price ≤ trade.take_profit_2 ∨
      current_price ≤ trade.take_profit_1 ∨ trade.stop_loss ≤ current_price
  | .LONG => trade.take_profit_2 ≤ current_price ∨
      trade.take_profit_1 ≤ current_price ∨ current_price ≤ trade.stop_loss

instance (trade : Trade) (p : ℚ) : Decidable (priceExitHit trade p) := by
  unfold priceExitHit
  cases trade.direction <;> infer_instance

/-- A concrete open SHORT trade used by the C2 witness: entry 100,
SL 103, TP1 98, TP2 96. -/
def witnessTrade : Trade where
  symbol := "BTCUSDT"
  direction := .SHORT
  entry_price := 100
  stop_loss := 103
  take_profit_1 := 98
  take_profit_2 := 96
  risk_percent := 3
  risk_distance := 3
  opened_at := 0
  bars_in_trade := 0
  current_price := 100
  pnl_percent := 0
  highest_r := 0
  status := .OPEN
  exit_reason := none
  exit_price := none
  closed_at := none

/-- The `position_data` dict produced by `PositionCalculator` and consumed
by `VirtualTrader.open_trade`. -/
structure PositionData where
  symbol : String
  direction : Dir
  entry_price : ℚ
  stop_loss : ℚ
  take_profit_1 : ℚ
  take_profit_2 : ℚ
  risk_percent : ℚ
  risk_distance : ℚ
deriving DecidableEq, Repr

/-- Association-list lookup modelling `dict.get` / `symbol in dict` on the
`_active_trades` dict. -/
def lookupA (l : List (String × Trade)) (s : String) : Option Trade :=
  match l with
  | [] => none
  | (k, v) :: t => if k = s then some v else lookupA t s

/-- In-place value update of the entry with the given key (mutating the
trade dict held in `_active_trades[symbol]`). -/
def setA (l : List (String × Trade)) (s : String) (v : Trade) :
    List (String × Trade) :=
  l.map fun p => if p.1 = s then (p.1, v) else p

/-- `del self._active_trades[symbol]`: remove the entry with the key. -/
def eraseA (l : List (String × Trade)) (s : String) : List (String × Trade) :=
  l.eraseP fun p => p.1 == s

/-- The mutable state of a `VirtualTrader`: the `_active_trades` dict (as
an association list in insertion order, as a Python dict iterates) and the
`_closed_trades` list. -/
structure VTState where
  active : List (String × Trade)
  closed : List Trade
deriving DecidableEq, Repr

/-- The fresh trade dict built inside `open_trade` (`**position_data` plus
the lifecycle fields). -/
def mkOpenTrade (pd : PositionData) (now : ℚ) : Trade where
  symbol := pd.symbol
  direction := pd.direction
  entry_price := pd.entry_price
  stop_loss := pd.stop_loss
  take_profit_1 := pd.take_profit_1
  take_profit_2 := pd.take_profit_2
  risk_percent := pd.risk_percent
  risk_distance := pd.risk_distance
  opened_at := now
  bars_in_trade := 0
  current_price := pd.entry_price
  pnl_percent := 0
  highest_r := 0
  status := .OPEN
  exit_reason := none
  exit_price := none
  closed_at := none

/-- `VirtualTrader.open_trade`: a no-op when a trade for the symbol is
already in `_active_trades`, otherwise inserts the fresh OPEN trade. -/
def open_trade (st : VTState) (pd : PositionData) (now : ℚ) : VTState :=
  if (lookupA st.active pd.symbol).isSome then st
  else { st with active := st.active ++ [(pd.symbol, mkOpenTrade pd now)] }

/-- `VirtualTrader.close_trade`: stamps the exit fields on the trade,
appends it to `_closed_trades` and deletes it from `_active_trades`; a
no-op when no trade for the symbol is active. -/
def close_trade (st : VTState) (symbol : String) (exit_reason : ExitReason)
    (now : ℚ) : VTState :=
  match lookupA st.active symbol with
  | none => st
  | some trade =>
    let closedT := { trade with
      exit_reason := some exit_reason
      exit_price := some trade.current_price
      closed_at := some now
      status := .CLOSED }
    { active := eraseA st.active symbol, closed := st.closed ++ [closedT] }

/-- `VirtualTrader.update_trade`: refreshes price/bar-count/PnL/R fields
from the last closed candle, then closes the trade if an exit condition
fires.  `last_candle` is the result of
`cache.candles.get_last_candle(symbol)` (`none` mirrors an empty cache,
which makes the call a no-op). -/
def update_trade (cfg : StrategyConfig) (st : VTState) (symbol : String)
    (last_candle : Option Candle) (now : ℚ) : VTState :=
  match lookupA st.active symbol with
  | none => st
  | some trade =>
    match last_candle with
    | none => st
    | some candle =>
      let current_price := candle.close
      let t1 := { trade with
        current_price := current_price
        bars_in_trade := trade.bars_in_trade + 1 }
      let pnl_percent := calculate_pnl t1 current_price
      let t2 := { t1 with pnl_percent := pnl_percent }
      let r_achieved := |pnl_percent / t2.risk_percent|
      let t3 := { t2 with highest_r := max t2.highest_r r_achieved }
      let stMid : VTState := { st with active := setA st.active symbol t3 }
      match check_exit_conditions cfg t3 current_price with
      | some reason => close_trade stMid symbol reason now
      | none => stMid

/-- The per-symbol uniqueness invariant on `_active_trades`: no symbol
keys two active trades. -/
def activeKeysNodup (st : VTState) : Prop :=
  (st.active.map Prod.fst).Nodup

/-! ## Sweep gate (`LSFPDetector._check_sweep`) -/

/-- Python `max(list)` on a non-empty list (the empty case is unreachable
behind the length guard; 0 is a harmless placeholder). -/
def listMax : List ℚ → ℚ
  | [] => 0
  | x :: t => t.foldl max x

/-- Python `min(list)` on a non-empty list. -/
def listMin : List ℚ → ℚ
  | [] => 0
  | x :: t => t.foldl min x

/-- The candidate record returned by `_check_sweep`. -/
structure SweepResult where
  direction : Dir
  stype : String
  sweep_level : ℚ
  sweep_amount : ℚ
  sweep_atr_r : ℚ
deriving DecidableEq, Repr

/-- `LSFPDetector._check_sweep`: `prev_candles[-20:]` is
`drop (length − 20)`; the high-sweep test runs first, the low-sweep test
only if it failed; both are inclusive (`>=`). -/
def check_sweep (cfg : StrategyConfig) (candle : Candle)
    (prev_candles : List Candle) (atr : ℚ) : Option SweepResult :=
  let lookback := 20
  let recent_candles := prev_candles.drop (prev_candles.length - lookback)
  if recent_candles.length < lookback then none
  else
    let max_high := listMax (recent_candles.map Candle.high)
    let min_low := listMin (recent_candles.map Candle.low)
    let high_sweep_amount := candle.high - max_high
    let low_sweep_amount := min_low - candle.low
    let min_sweep := atr * cfg.sweep_min_atr
    if min_sweep ≤ high_sweep_amount then
      some ⟨.SHORT, "high_sweep", max_high, high_sweep_amount,
        high_sweep_amount / atr⟩
    else if min_sweep ≤ low_sweep_amount then
      some ⟨.LONG, "low_sweep", min_low, low_sweep_amount,
        low_sweep_amount / atr⟩
    else none

/-- The flat 20-candle history used by the C6 witness. -/
def sweepPrev : List Candle := List.replicate 20 ⟨100, 100, 90, 95, 1⟩

/-! ## Zone detector (`ZoneDetector._merge_close_zones` and `ZoneCache`) -/

/-- Zone type (`'support'` / `'resistance'`). -/
inductive ZType where
  | support
  | resistance
deriving DecidableEq, Repr

/-- A zone dict as produced by `ZoneDetector` (the `width` field is the
half-width: the zone covers `price ± width`). -/
structure Zone where
  symbol : String
  price : ℚ
  width : ℚ
  ztype : ZType
  source : String
  score : ℚ
  touches : ℕ
deriving DecidableEq, Repr

/-- The accumulator loop of `_merge_close_zones` over the price-sorted
zone list: `current_zone` absorbs each next zone that is within the summed
widths and of the same type (midpoint price, max score + 1, touch count +1,
max width), otherwise it is flushed and the next zone becomes current. -/
def mergeLoop (current_zone : Zone) : List Zone → List Zone
  | [] => [current_zone]
  | next_zone :: rest =>
    if |next_zone.price - current_zone.price| ≤
          current_zone.width + next_zone.width ∧
        current_zone.ztype = next_zone.ztype then
      mergeLoop { current_zone with
        price := (current_zone.price + next_zone.price) / 2
        score := max current_zone.score next_zone.score + 1
        touches := current_zone.touches + 1
        width := max current_zone.width next_zone.width } rest
    else
      current_zone :: mergeLoop next_zone rest

/-- `ZoneDetector._merge_close_zones`: sort by price (Python `sorted` is
stable; insertion sort is the stable sort), then run the merge loop. -/
def merge_close_zones (zones : List Zone) : List Zone :=
  match List.insertionSort (fun a b => a.price ≤ b.price) zones with
  | [] => []
  | z :: rest => mergeLoop z rest

/-- Resistance zone at price 100, half-width 0.3 (the C7 example). -/
def zoneA : Zone := ⟨"BTCUSDT", 100, 0.3, .resistance, "swing_high", 6, 1⟩

/-- Resistance zone at price 100.4, half-width 0.3. -/
def zoneB : Zone := ⟨"BTCUSDT", 100.4, 0.3, .resistance, "swing_high", 6, 1⟩

/-- Resistance zone at price 101, half-width 0.3. -/
def zoneC : Zone := ⟨"BTCUSDT", 101, 0.3, .resistance, "swing_high", 6, 1⟩

/-! ## Liquidation aggregator (`LiquidationAggregator.get_liquidation_bias`) -/

/-- A liquidation event as cached by `LiquidationCache.add_liquidation`
(the Binance force-order `side` is the raw string: `'SELL'` liquidates a
long position, `'BUY'` a short). -/
structure Liq where
  side : String
  price : ℚ
  quantity : ℚ
deriving DecidableEq, Repr

/-- The long-side liquidated volume of `get_liquidation_bias`:
`sum(quantity × price for events with side == 'SELL')`. -/
def long_liq_volume (liqs : List Liq) : ℚ :=
  ((liqs.filter fun liq => liq.side == "SELL").map
    fun liq => liq.quantity * liq.price).sum

/-- The short-side liquidated volume: events with `side == 'BUY'`. -/
def short_liq_volume (liqs : List Liq) : ℚ :=
  ((liqs.filter fun liq => liq.side == "BUY").map
    fun liq => liq.quantity * liq.price).sum

/-- `LiquidationAggregator.get_liquidation_bias`, as a function of the
recent liquidation window (the result of
`cache.liquidations.get_liquidations(symbol, minutes)`). -/
def get_liquidation_bias (liqs : List Liq) : Option String :=
  if liqs = [] then none
  else
    let long := long_liq_volume liqs
    let short := short_liq_volume liqs
    let total := long + short
    if total = 0 then none
    else if 0.65 < long / total then some "LONG"
    else if 0.65 < short / total then some "SHORT"
    else some "MIXED"

/-- The C8 counterexample window: one long-side liquidation of volume 13
and one short-side liquidation of volume 7 (long share exactly 65%). -/
def biasCex : List Liq := [⟨"SELL", 1, 13⟩, ⟨"BUY", 1, 7⟩]

/-! ## Position calculator (`PositionCalculator`) -/

/-- `PositionCalculator._calculate_entry`: midpoint of the 50%–62%
retracement band of the triggering candle's body (`sweep_level` is taken
but unused, as in the source). -/
def calculate_entry (candle : Candle) (direction : Dir)
    (_sweep_level : ℚ) : ℚ :=
  let candle_open := candle.open_
  let candle_close := candle.close
  let body_high := max candle_open candle_close
  let body_low := min candle_open candle_close
  let body_size := |candle_close - candle_open|
  match direction with
  | .SHORT =>
    let retracement_50 := body_high - body_size * 0.50
    let retracement_62 := body_high - body_size * 0.62
    (retracement_50 + retracement_62) / 2
  | .LONG =>
    let retracement_50 := body_low + body_size * 0.50
    let retracement_62 := body_low + body_size * 0.62
    (retracement_50 + retracement_62) / 2

/-- `PositionCalculator._calculate_stop_loss`: candle extremum offset
outward by ATR × the average of the min/max multipliers, clamped to the
maximum percent-of-entry when the raw risk exceeds it. -/
def calculate_stop_loss (cfg : StrategyConfig) (entry : ℚ) (direction : Dir)
    (candle : Candle) (atr : ℚ) : ℚ :=
  let sl_atr_multiplier := (cfg.sl_atr_min + cfg.sl_atr_max) / 2
  let stop_loss :=
    match direction with
    | .SHORT => candle.high + atr * sl_atr_multiplier
    | .LONG => candle.low - atr * sl_atr_multiplier
  let risk_percent := |(stop_loss - entry) / entry| * 100
  if cfg.sl_max_percent < risk_percent then
    match direction with
    | .SHORT => entry * (1 + cfg.sl_max_percent / 100)
    | .LONG => entry * (1 - cfg.sl_max_percent / 100)
  else
    stop_loss

/-- `PositionCalculator._calculate_take_profits`. -/
def calculate_take_profits (cfg : StrategyConfig) (entry stop_loss : ℚ)
    (direction : Dir) (risk_distance : ℚ) : ℚ × ℚ :=
  let r_multiplier_tp1 := cfg.tp1_r
  match direction with
  | .SHORT =>
    let tp1_by_r := entry - risk_distance * r_multiplier_tp1
    let tp1_by_percent := entry * (1 - cfg.tp1_percent / 100)
    let tp1 := max tp1_by_r tp1_by_percent
    let tp2_min := entry * (1 - cfg.tp2_min_percent / 100)
    let tp2_max := entry * (1 - cfg.tp2_max_percent / 100)
    let tp2_by_r_min := entry - risk_distance * cfg.tp2_r_min
    let tp2 := min (max tp2_by_r_min tp2_max) tp2_min
    (tp1, tp2)
  | .LONG =>
    let tp1_by_r := entry + risk_distance * r_multiplier_tp1
    let tp1_by_percent := entry * (1 + cfg.tp1_percent / 100)
    let tp1 := min tp1_by_r tp1_by_percent
    let tp2_min := entry * (1 + cfg.tp2_min_percent / 100)
    let tp2_max := entry * (1 + cfg.tp2_max_percent / 100)
    let tp2_by_r_min := entry + risk_distance * cfg.tp2_r_min
    let tp2 := max (min tp2_by_r_min tp2_max) tp2_min
    (tp1, tp2)

/-- `PositionCalculator.calculate_entry_sl_tp`, as a function of the
scored signal's fields it reads (symbol, direction, triggering candle,
ATR, sweep level). -/
def calculate_entry_sl_tp (cfg : StrategyConfig) (symbol : String)
    (direction : Dir) (candle : Candle) (atr : ℚ) (sweep_level : ℚ) :
    Option PositionData :=
  let entry_price := calculate_entry candle direction sweep_level
  let stop_loss := calculate_stop_loss cfg entry_price direction candle atr
  let risk_distance := |entry_price - stop_loss|
  let risk_percent := risk_distance / entry_price * 100
  if cfg.sl_max_percent < risk_percent then
    none
  else
    let tps := calculate_take_profits cfg entry_price stop_loss direction
      risk_distance
    some ⟨symbol, direction, entry_price, stop_loss, tps.1, tps.2,
      risk_percent, risk_distance⟩

/-! ## Zone cache lookups (`ZoneCache`) and signal scorer (`SignalScorer`) -/

/-- Python `min(zones, key=lambda z: abs(z.price - price))` on a non-empty
list: the first element of minimal distance wins ties, as `min` does. -/
def minByDist (price : ℚ) : List Zone → Option Zone
  | [] => none
  | z :: t => some (t.foldl
      (fun best cand =>
        if |cand.price - price| < |best.price - price| then cand else best) z)

/-- `ZoneCache.get_nearest_resistance`: nearest resistance zone strictly
above the price. -/
def get_nearest_resistance (zones : List Zone) (current_price : ℚ) :
    Option Zone :=
  minByDist current_price (zones.filter fun z =>
    decide (current_price < z.price ∧ z.ztype = ZType.resistance))

/-- `ZoneCache.get_nearest_support`: nearest support zone strictly below
the price. -/
def get_nearest_support (zones : List Zone) (current_price : ℚ) :
    Option Zone :=
  minByDist current_price (zones.filter fun z =>
    decide (z.price < current_price ∧ z.ztype = ZType.support))

/-- The candidate-pattern fields `SignalScorer.score_signal` reads. -/
structure Pattern where
  symbol : String
  direction : Dir
  sweep_atr_r : ℚ
  wick_r : ℚ
  liquidation_score : ℚ
  oi_delta : ℚ
  volume_r : ℚ
  close : ℚ
  atr : ℚ
deriving DecidableEq, Repr

/-- The replies of the scorer's collaborators (`PairClustering`) and the
zone cache contents, passed explicitly: `score_signal` only consumes
them. -/
structure ScoreEnv where
  can_add_position_to_cluster : Bool
  cluster_penalty : ℚ
  is_leader_symbol : Bool
  leader_corr : ℚ
  zones : List Zone
deriving DecidableEq, Repr

/-- The scored-signal record (`scores` sub-dict flattened). -/
structure ScoredSignal where
  symbol : String
  direction : Dir
  sweep_score : ℚ
  wick_score : ℚ
  liq_score : ℚ
  oi_score : ℚ
  volume_score : ℚ
  base_score : ℚ
  cluster_penalty : ℚ
  leader_bonus : ℚ
  rr_bonus : ℚ
  final_score : ℚ
  nearest_zone : Option Zone
  scored_at : ℚ
deriving DecidableEq, Repr

/-- `'SHORT'`/`'LONG'` as used in the `f"{symbol}_{direction}"` key. -/
def dirStr : Dir → String
  | .SHORT => "SHORT"
  | .LONG => "LONG"

/-- The `_recent_signals` dict key for a symbol and direction. -/
def sigKey (symbol : String) (direction : Dir) : String :=
  symbol ++ "_" ++ dirStr direction

/-- Association-list lookup on the `_recent_signals` dict. -/
def lookupS (l : List (String × ℚ)) (k : String) : Option ℚ :=
  match l with
  | [] => none
  | (k2, v) :: t => if k2 = k then some v else lookupS t k

/-- Python dict assignment `d[k] = v`: overwrite in place when the key
exists, append otherwise. -/
def insertS (l : List (String × ℚ)) (k : String) (v : ℚ) :
    List (String × ℚ) :=
  match l with
  | [] => [(k, v)]
  | (k2, v2) :: t =>
    if k2 = k then (k2, v) :: t else (k2, v2) :: insertS t k v

/-- `SignalScorer._is_duplicate_signal` (default `cooldown_bars = 3`,
which is how `score_signal` calls it). -/
def is_duplicate_signal (recent : List (String × ℚ)) (symbol : String)
    (direction : Dir) (now : ℚ) (cooldown_bars : ℕ) : Bool :=
  match lookupS recent (sigKey symbol direction) with
  | none => false
  | some last_signal_time =>
    let time_since := now - last_signal_time
    let cooldown_seconds := (cooldown_bars : ℚ) * 15 * 60
    decide (time_since < cooldown_seconds)

/-- `SignalScorer._get_blocking_zone`: support for SHORT patterns,
resistance for LONG patterns. -/
def get_blocking_zone (zones : List Zone) (current_price : ℚ)
    (direction : Dir) : Option Zone :=
  match direction with
  | .SHORT => get_nearest_support zones current_price
  | .LONG => get_nearest_resistance zones current_price

/-- The zone risk gate inside `score_signal` (source lines 62-72): a
blocking zone closer than `min_rr_to_zone` ATR multiples rejects the
signal (`none`), a farther zone yields the bounded bonus, no zone yields
the maximum bonus 3. -/
def rr_bonus_gate (cfg : StrategyConfig) (nearest_zone : Option Zone)
    (current_price atr : ℚ) : Option ℚ :=
  match nearest_zone with
  | some z =>
    let zone_distance := |z.price - current_price|
    let risk_to_zone := zone_distance / atr
    if risk_to_zone < cfg.min_rr_to_zone then none
    else some (min ((risk_to_zone - 1) * 2) 3)
  | none => some 3

/-- `SignalScorer.score_signal`: returns the scored signal (or `none` on
any rejection) together with the updated `_recent_signals` state.  `now`
is `time.time()`. -/
def score_signal (cfg : StrategyConfig) (env : ScoreEnv)
    (recent : List (String × ℚ)) (now : ℚ) (p : Pattern) :
    Option ScoredSignal × List (String × ℚ) :=
  if env.can_add_position_to_cluster then
    let sweep_score := min (p.sweep_atr_r / 0.5 * 10) 10
    let wick_score := min (p.wick_r / 3 * 10) 10
    let liq_score := p.liquidation_score
    let oi_score := min (|p.oi_delta| / 3 * 10) 10
    let volume_score := min (p.volume_r * 5) 10
    let base_score := sweep_score * 0.25 + wick_score * 0.20 +
      liq_score * 0.25 + oi_score * 0.20 + volume_score * 0.10
    let cluster_penalty := env.cluster_penalty
    let leader_bonus := if env.is_leader_symbol then 2
      else env.leader_corr * 1.5
    let current_price := p.close
    let nearest_zone := get_blocking_zone env.zones current_price p.direction
    match rr_bonus_gate cfg nearest_zone current_price p.atr with
    | none => (none, recent)
    | some rr_bonus =>
      if is_duplicate_signal recent p.symbol p.direction now 3 then
        (none, recent)
      else
        let final_score := base_score - cluster_penalty + leader_bonus +
          rr_bonus
        let final_clipped := max 0 (min final_score 10)
        (some ⟨p.symbol, p.direction, sweep_score, wick_score, liq_score,
            oi_score, volume_score, base_score, cluster_penalty,
            leader_bonus, rr_bonus, final_clipped, nearest_zone, now⟩,
          insertS recent (sigKey p.symbol p.direction) now)
  else
    (none, recent)

/-- A support zone 0.1 below the candle close of the C3 inputs. -/
def supZone : Zone := ⟨"TUSDT", 99.9, 0.25, .support, "swing_low", 6, 1⟩

/-- Scorer environment for the C3 inputs: cluster has room, no penalties,
and the zone cache holds only `supZone`. -/
def cexEnv : ScoreEnv := ⟨true, 0, false, 0, [supZone]⟩

/-- A LONG candidate pattern at close 100 with ATR 1. -/
def cexPattern : Pattern := ⟨"TUSDT", .LONG, 0.2, 1, 5, -1, 1, 100, 1⟩

/-- Scorer environment for the C10 witness: cluster has room, no
penalties, empty zone cache. -/
def cdEnv : ScoreEnv := ⟨true, 0, false, 0, []⟩

/-- A weak SHORT pattern (all component metrics zero, final score 3 —
below the caller's 6.0 acceptance threshold). -/
def cdPattern : Pattern := ⟨"XUSDT", .SHORT, 0, 0, 0, 0, 0, 100, 1⟩

/-! ## Market state store reads (`CandleCache`)

Python dicts are mutable heap objects and the cache's deque holds
*references* to them.  The embedding makes the references explicit: a
`CandleStore` carries a heap (address ↦ candle record, addresses are
allocation indices) and the per-symbol deque as a list of addresses.
`list(deque)` copies the container, so a read hands back a fresh list of
the *same* addresses; `get_last_candle` returns the stored address
itself. -/

structure CandleStore where
  heap : List Candle
  store : List ℕ
  max_candles : ℕ
deriving DecidableEq, Repr

/-- `CandleCache.add_candle`: the caller allocates a fresh candle dict
(fresh address) and the deque appends the reference, evicting its oldest
entry beyond `max_candles`. -/
def add_candle (st : CandleStore) (c : Candle) : CandleStore :=
  let a := st.heap.length
  let s := st.store ++ [a]
  { st with
    heap := st.heap ++ [c]
    store := if st.max_candles < s.length then s.tail else s }

/-- Dereference a candle record. -/
def read_ref (st : CandleStore) (a : ℕ) : Candle :=
  st.heap.getD a default

/-- `CandleCache.get_candles` (no limit): `list(self._candles[symbol])` —
a fresh list holding the stored references. -/
def get_candles (st : CandleStore) : List ℕ :=
  st.store

/-- `CandleCache.get_last_candle`: `candles[-1]`, the stored reference to
the last candle dict. -/
def get_last_candle (st : CandleStore) : Option ℕ :=
  st.store.getLast?

/-- In-place mutation of a candle dict through a reference (what a caller
can do with a record obtained from a read, e.g. `candle['close'] = x`). -/
def mutate_candle (st : CandleStore) (a : ℕ) (c : Candle) : CandleStore :=
  { st with heap := st.heap.set a c }

/-- The store's contents: the deque's references, dereferenced. -/
def store_contents (st : CandleStore) : List Candle :=
  st.store.map (read_ref st)

/-- The single-candle store of the C9 counterexample. -/
def aliasStore : CandleStore := add_candle ⟨[], [], 200⟩ ⟨1, 2, 0, 1, 5⟩

/-! ## Theorems -/

/-- C5: for `periods = N ≥ 1`, `calculate_oi_delta` returns `none` iff the
history holds fewer than `N` samples or the `N`-th-from-last sample is
zero; otherwise it returns `(latest − N-th-from-last)/N-th-from-last × 100`;
and on `[1000, 980, 950]` with `periods = 3` it returns `−5`. -/
theorem oi_delta_spec (history : List ℚ) (periods : ℕ) (hp : 1 ≤ periods) :
    (calculate_oi_delta history periods = none ↔
      history.length < periods ∨ history.getD (history.length - periods) 0 = 0) ∧
    (∀ _hlen : periods ≤ history.length,
      ∀ _hnz : history.getD (history.length - periods) 0 ≠ 0,
      calculate_oi_delta history periods =
        some ((history.getD (history.length - 1) 0 -
                history.getD (history.length - periods) 0) /
              history.getD (history.length - periods) 0 * 100)) ∧
    calculate_oi_delta [1000, 980, 950] 3 = some (-5) := by
  refine ⟨?_, ?_, by norm_num [calculate_oi_delta]⟩
  · unfold calculate_oi_delta
    by_cases hlen : history.length < periods
    · simp [hlen]
    · by_cases hzero : history.getD (history.length - periods) 0 = 0 <;>
        simp [hlen, hzero]
  · intro hlen hnz
    unfold calculate_oi_delta
    rw [if_neg (by omega), if_neg hnz]

/-- Witness for C5: the documented example history. -/
theorem oi_delta_spec_witness :
    calculate_oi_delta [1000, 980, 950] 3 = none ↔
      ([1000, 980, 950] : List ℚ).length < 3 ∨
        ([1000, 980, 950] : List ℚ).getD (([1000, 980, 950] : List ℚ).length - 3) 0 = 0 :=
  (oi_delta_spec [1000, 980, 950] 3 (by norm_num)).1

/-- When none of the three price levels is touched, the price chain of
`_check_exit_conditions` yields no exit. -/
theorem price_exit_eq_none (trade : Trade) (p : ℚ) (h : ¬priceExitHit trade p) :
    price_exit trade p = none := by
  rcases hdir : trade.direction with _ | _ <;>
    simp only [priceExitHit, hdir] at h <;>
    push_neg at h <;>
    obtain ⟨h1, h2, h3⟩ := h <;>
    simp [price_exit, hdir, not_le.mpr h1, not_le.mpr h2, not_le.mpr h3]

/-- C2: exit priority.  A price at or beyond both TP thresholds closes
with `TP2`, never `TP1`; once the hard bar maximum is reached the trade
closes no matter what `highest_r` is; between the soft and hard bar
thresholds (with no price exit) a close happens exactly when `highest_r`
is below the configured minimum. -/
theorem exit_priority_spec (cfg : StrategyConfig) (trade : Trade) (p : ℚ) :
    (trade.direction = .SHORT → p ≤ trade.take_profit_2 → p ≤ trade.take_profit_1 →
      check_exit_conditions cfg trade p = some .TP2) ∧
    (trade.direction = .LONG → trade.take_profit_2 ≤ p → trade.take_profit_1 ≤ p →
      check_exit_conditions cfg trade p = some .TP2) ∧
    (cfg.time_stop_bars_max ≤ trade.bars_in_trade →
      (check_exit_conditions cfg trade p).isSome) ∧
    (¬priceExitHit trade p → cfg.time_stop_bars ≤ trade.bars_in_trade →
      trade.bars_in_trade < cfg.time_stop_bars_max →
      cfg.time_stop_min_r ≤ trade.highest_r →
      check_exit_conditions cfg trade p = none) ∧
    (¬priceExitHit trade p → cfg.time_stop_bars ≤ trade.bars_in_trade →
      trade.highest_r < cfg.time_stop_min_r →
      check_exit_conditions cfg trade p = some .TIME_STOP) := by
  refine ⟨?_, ?_, ?_, ?_, ?_⟩
  · intro hd h2 _h1
    simp [check_exit_conditions, price_exit, hd, h2]
  · intro hd h2 _h1
    simp [check_exit_conditions, price_exit, hd, h2]
  · intro hmax
    unfold check_exit_conditions
    cases hpe : price_exit trade p
    · by_cases hsoft : cfg.time_stop_bars ≤ trade.bars_in_trade ∧
        trade.highest_r < cfg.time_stop_min_r
      · simp [hsoft]
      · simp [hsoft, hmax]
    · simp
  · intro hnp hsoft hhard hr
    unfold check_exit_conditions
    rw [price_exit_eq_none trade p hnp]
    rw [if_neg (by exact fun hc => absurd hc.2 (not_lt.mpr hr)),
      if_neg (by omega)]
  · intro hnp hsoft hr
    unfold check_exit_conditions
    rw [price_exit_eq_none trade p hnp]
    rw [if_pos ⟨hsoft, hr⟩]

/-- Witness for C2: at price 95 (beyond both TPs) the SHORT trade closes
with `TP2`; at bar 8 a neutral-priced stagnant trade still closes; at
bar 6 with `highest_r = 1` it stays open; at bar 6 with `highest_r = 0`
it closes with `TIME_STOP`. -/
theorem exit_priority_spec_witness :
    check_exit_conditions defaultConfig witnessTrade 95 = some .TP2 ∧
    (check_exit_conditions defaultConfig { witnessTrade with bars_in_trade := 8 } 100).isSome ∧
    check_exit_conditions defaultConfig
      { witnessTrade with bars_in_trade := 6, highest_r := 1 } 100 = none ∧
    check_exit_conditions defaultConfig
      { witnessTrade with bars_in_trade := 6 } 100 = some .TIME_STOP := by
  refine ⟨?_, ?_, ?_, ?_⟩
  · exact (exit_priority_spec defaultConfig witnessTrade 95).1 rfl
      (by norm_num [witnessTrade]) (by norm_num [witnessTrade])
  · exact (exit_priority_spec defaultConfig _ 100).2.2.1 (by norm_num [defaultConfig])
  · exact (exit_priority_spec defaultConfig _ 100).2.2.2.1
      (by norm_num [priceExitHit, witnessTrade]) (by norm_num [defaultConfig])
      (by norm_num [defaultConfig]) (by norm_num [defaultConfig])
  · exact (exit_priority_spec defaultConfig _ 100).2.2.2.2
      (by norm_num [priceExitHit, witnessTrade]) (by norm_num [defaultConfig])
      (by norm_num [defaultConfig, witnessTrade])

theorem lookupA_eq_none_iff (l : List (String × Trade)) (s : String) :
    lookupA l s = none ↔ s ∉ l.map Prod.fst := by
  induction l with
  | nil => simp [lookupA]
  | cons hd t ih =>
    by_cases h : hd.1 = s
    · simp [lookupA, h]
    · simp [lookupA, h, ih, Ne.symm h]

theorem keys_setA (l : List (String × Trade)) (s : String) (v : Trade) :
    (setA l s v).map Prod.fst = l.map Prod.fst := by
  induction l with
  | nil => rfl
  | cons hd t ih =>
    by_cases h : hd.1 = s <;> simp [setA, h] <;>
      simpa [setA] using ih

theorem keys_eraseA_sublist (l : List (String × Trade)) (s : String) :
    ((eraseA l s).map Prod.fst).Sublist (l.map Prod.fst) :=
  ((l.eraseP_sublist).map Prod.fst)

theorem activeKeysNodup_setA (st : VTState) (s : String) (v : Trade)
    (h : (st.active.map Prod.fst).Nodup) :
    ((setA st.active s v).map Prod.fst).Nodup := by
  simpa [keys_setA] using h

theorem close_trade_nodup (st : VTState) (s : String) (r : ExitReason)
    (now : ℚ) (h : (st.active.map Prod.fst).Nodup) :
    ((close_trade st s r now).active.map Prod.fst).Nodup := by
  unfold close_trade
  cases lookupA st.active s
  · exact h
  · exact (keys_eraseA_sublist st.active s).nodup h

/-- C1: (i) when a trade for the symbol is already active, `open_trade` is
the identity on the trader state — the existing trade's entry, stop,
targets, bar count and status are untouched; (ii) the one-OPEN-trade-per-
symbol invariant is preserved by `open_trade`, `update_trade` and
`close_trade`. -/
theorem single_open_trade_invariant (st : VTState) (pd : PositionData)
    (now : ℚ) (cfg : StrategyConfig) (s : String) (c : Option Candle)
    (r : ExitReason) :
    ((lookupA st.active pd.symbol).isSome → open_trade st pd now = st) ∧
    (activeKeysNodup st →
      activeKeysNodup (open_trade st pd now) ∧
      activeKeysNodup (update_trade cfg st s c now) ∧
      activeKeysNodup (close_trade st s r now)) := by
  constructor
  · intro h
    simp [open_trade, h]
  · intro hnd
    refine ⟨?_, ?_, ?_⟩
    · unfold open_trade
      by_cases h : (lookupA st.active pd.symbol).isSome
      · simpa [h] using hnd
      · rw [if_neg h]
        have hnotmem : pd.symbol ∉ st.active.map Prod.fst :=
          (lookupA_eq_none_iff st.active pd.symbol).mp
            (Option.not_isSome_iff_eq_none.mp h)
        unfold activeKeysNodup at *
        dsimp only
        rw [List.map_append, List.nodup_append]
        refine ⟨hnd, by simp, ?_⟩
        intro a ha hb
        simp only [List.map_cons, List.map_nil, List.mem_singleton] at hb
        exact hnotmem (hb ▸ ha)
    · unfold update_trade activeKeysNodup
      cases hlk : lookupA st.active s
      · exact hnd
      · cases c
        · exact hnd
        · dsimp only
          cases check_exit_conditions cfg _ _
          · exact activeKeysNodup_setA st s _ hnd
          · exact close_trade_nodup _ s _ now (activeKeysNodup_setA st s _ hnd)
    · exact close_trade_nodup st s r now hnd

/-- Witness for C1: with a BTC trade already active, re-opening the same
symbol changes nothing, and all three operations keep the key set
duplicate-free. -/
theorem single_open_trade_invariant_witness :
    (open_trade ⟨[("BTCUSDT", witnessTrade)], []⟩
        ⟨"BTCUSDT", .SHORT, 100, 103, 98, 96, 3, 3⟩ 7 =
      ⟨[("BTCUSDT", witnessTrade)], []⟩) ∧
    activeKeysNodup (open_trade ⟨[("BTCUSDT", witnessTrade)], []⟩
      ⟨"BTCUSDT", .SHORT, 100, 103, 98, 96, 3, 3⟩ 7) := by
  have h := single_open_trade_invariant ⟨[("BTCUSDT", witnessTrade)], []⟩
    ⟨"BTCUSDT", .SHORT, 100, 103, 98, 96, 3, 3⟩ 7 defaultConfig "BTCUSDT"
    (some ⟨100, 101, 99, 100, 5⟩) .SL
  exact ⟨h.1 (by simp [lookupA]),
    (h.2 (by simp [activeKeysNodup])).1⟩

/-- C6: with at least 20 preceding candles of maximum high `H` and minimum
low `L`, a SHORT candidate is emitted exactly when
`high − H ≥ sweep_min_atr × ATR` (inclusive), and a LONG candidate exactly
when the low undercut reaches the threshold *and* the high sweep did not
fire (the high test runs first, so a candle satisfying both is SHORT). -/
theorem sweep_gate_spec (cfg : StrategyConfig) (candle : Candle)
    (prev : List Candle) (atr : ℚ) (h20 : 20 ≤ prev.length) :
    ((∃ res, check_sweep cfg candle prev atr = some res ∧
        res.direction = .SHORT) ↔
      cfg.sweep_min_atr * atr ≤
        candle.high - listMax ((prev.drop (prev.length - 20)).map Candle.high)) ∧
    ((∃ res, check_sweep cfg candle prev atr = some res ∧
        res.direction = .LONG) ↔
      (cfg.sweep_min_atr * atr ≤
          listMin ((prev.drop (prev.length - 20)).map Candle.low) - candle.low ∧
        ¬cfg.sweep_min_atr * atr ≤
          candle.high - listMax ((prev.drop (prev.length - 20)).map Candle.high))) := by
  have hlen : ¬((prev.drop (prev.length - 20)).length < 20) := by
    rw [List.length_drop]
    omega
  unfold check_sweep
  rw [if_neg hlen]
  dsimp only
  rw [mul_comm atr cfg.sweep_min_atr]
  by_cases hhigh : cfg.sweep_min_atr * atr ≤
      candle.high - listMax ((prev.drop (prev.length - 20)).map Candle.high)
  · rw [if_pos hhigh]
    refine ⟨⟨fun _ => hhigh, fun _ => ⟨_, rfl, rfl⟩⟩, ?_, ?_⟩
    · rintro ⟨res, hres, hdir⟩
      cases hres
      exact Dir.noConfusion hdir
    · rintro ⟨_, habs⟩
      exact absurd hhigh habs
  · rw [if_neg hhigh]
    by_cases hlow : cfg.sweep_min_atr * atr ≤
        listMin ((prev.drop (prev.length - 20)).map Candle.low) - candle.low
    · rw [if_pos hlow]
      refine ⟨⟨?_, fun h => absurd h hhigh⟩,
        fun _ => ⟨hlow, hhigh⟩, fun _ => ⟨_, rfl, rfl⟩⟩
      rintro ⟨res, hres, hdir⟩
      cases hres
      exact Dir.noConfusion hdir
    · rw [if_neg hlow]
      refine ⟨⟨?_, fun h => absurd h hhigh⟩, ?_, ?_⟩
      · rintro ⟨res, hres, _⟩
        exact Option.noConfusion hres
      · rintro ⟨res, hres, _⟩
        exact Option.noConfusion hres
      · rintro ⟨h, _⟩
        exact absurd h hlow

/-- Witness for C6: at exactly the configured threshold
(high = prior max-high 100 + 0.05 × ATR with ATR = 1) the SHORT candidate
fires. -/
theorem sweep_gate_spec_witness :
    ∃ res, check_sweep defaultConfig ⟨99, 100.05, 95, 99, 1⟩ sweepPrev 1 =
        some res ∧ res.direction = .SHORT :=
  (sweep_gate_spec defaultConfig ⟨99, 100.05, 95, 99, 1⟩ sweepPrev 1
    (by norm_num [sweepPrev])).1.mpr
    (by norm_num [sweepPrev, List.replicate, listMax, defaultConfig, max_def])

/-- C7: for a price-ordered pair of same-type zones, the pair merges into
a single zone (midpoint price, max half-width, max score + 1, incremented
touch count) exactly when the price distance is within the sum of the
half-widths; otherwise both zones survive unchanged. -/
theorem zone_merge_spec (z1 z2 : Zone) (hle : z1.price ≤ z2.price)
    (hty : z1.ztype = z2.ztype) :
    (|z2.price - z1.price| ≤ z1.width + z2.width →
      merge_close_zones [z1, z2] = [{ z1 with
        price := (z1.price + z2.price) / 2
        width := max z1.width z2.width
        score := max z1.score z2.score + 1
        touches := z1.touches + 1 }]) ∧
    (¬|z2.price - z1.price| ≤ z1.width + z2.width →
      merge_close_zones [z1, z2] = [z1, z2]) := by
  have hsort : List.insertionSort (fun a b => a.price ≤ b.price) [z1, z2] =
      [z1, z2] := by
    simp [List.insertionSort, List.orderedInsert, hle]
  constructor
  · intro hd
    unfold merge_close_zones
    rw [hsort]
    unfold mergeLoop
    rw [if_pos ⟨hd, hty⟩]
    rfl
  · intro hd
    unfold merge_close_zones
    rw [hsort]
    unfold mergeLoop
    rw [if_neg fun hc => hd hc.1]
    rfl

/-- Witness for C7: the zones at 100 and 100.4 (half-widths 0.3) merge
into one zone at 100.2; the zones at 100 and 101 do not merge. -/
theorem zone_merge_spec_witness :
    merge_close_zones [zoneA, zoneB] =
      [{ zoneA with price := 100.2, width := 0.3, score := 7, touches := 2 }] ∧
    merge_close_zones [zoneA, zoneC] = [zoneA, zoneC] := by
  constructor
  · have h := (zone_merge_spec zoneA zoneB (by norm_num [zoneA, zoneB]) rfl).1
      (by norm_num [zoneA, zoneB, abs_le])
    rw [h]
    norm_num [zoneA, zoneB]
  · exact (zone_merge_spec zoneA zoneC (by norm_num [zoneA, zoneC]) rfl).2
      (by norm_num [zoneA, zoneC, abs_le])

/-- C8 counterexample: at exactly 65% long dominance the code returns
`MIXED`, not `LONG` — the dominance comparison is strict (`> 0.65`), so
"at least 0.65" does not suffice. -/
theorem liquidation_bias_counterexample :
    get_liquidation_bias biasCex = some "MIXED" ∧
    get_liquidation_bias biasCex ≠ some "LONG" ∧
    (0.65 : ℚ) ≤ long_liq_volume biasCex /
      (long_liq_volume biasCex + short_liq_volume biasCex) := by
  have hfl : biasCex.filter (fun liq => liq.side == "SELL") =
      [⟨"SELL", 1, 13⟩] := rfl
  have hfs : biasCex.filter (fun liq => liq.side == "BUY") =
      [⟨"BUY", 1, 7⟩] := rfl
  have hl : long_liq_volume biasCex = 13 := by
    unfold long_liq_volume
    rw [hfl]
    norm_num
  have hs : short_liq_volume biasCex = 7 := by
    unfold short_liq_volume
    rw [hfs]
    norm_num
  refine ⟨?_, ?_, ?_⟩
  · unfold get_liquidation_bias
    rw [if_neg (by simp [biasCex]), hl, hs]
    norm_num
  · unfold get_liquidation_bias
    rw [if_neg (by simp [biasCex]), hl, hs]
    norm_num
    intro hc
    exact absurd hc (by decide)
  · rw [hl, hs]
    norm_num

/-- C8 (amended): with a non-empty window of non-zero total volume, the
bias is `LONG` exactly when the long share strictly exceeds 0.65, `SHORT`
exactly when the short share strictly exceeds 0.65, `MIXED` exactly when
neither does; an empty window or a zero total yields `none`. -/
theorem liquidation_bias_spec (liqs : List Liq) (hne : liqs ≠ [])
    (htot : long_liq_volume liqs + short_liq_volume liqs ≠ 0) :
    (get_liquidation_bias liqs = some "LONG" ↔
      0.65 < long_liq_volume liqs /
        (long_liq_volume liqs + short_liq_volume liqs)) ∧
    (get_liquidation_bias liqs = some "SHORT" ↔
      0.65 < short_liq_volume liqs /
        (long_liq_volume liqs + short_liq_volume liqs)) ∧
    (get_liquidation_bias liqs = some "MIXED" ↔
      (long_liq_volume liqs /
          (long_liq_volume liqs + short_liq_volume liqs) ≤ 0.65 ∧
        short_liq_volume liqs /
          (long_liq_volume liqs + short_liq_volume liqs) ≤ 0.65)) ∧
    get_liquidation_bias [] = none ∧
    (∀ l2 : List Liq, long_liq_volume l2 + short_liq_volume l2 = 0 →
      get_liquidation_bias l2 = none) := by
  have hsum : long_liq_volume liqs / (long_liq_volume liqs + short_liq_volume liqs) +
      short_liq_volume liqs / (long_liq_volume liqs + short_liq_volume liqs) = 1 := by
    rw [div_add_div_same, div_self htot]
  unfold get_liquidation_bias
  rw [if_neg hne]
  dsimp only
  rw [if_neg htot]
  refine ?_
  by_cases hlong : (0.65 : ℚ) < long_liq_volume liqs /
      (long_liq_volume liqs + short_liq_volume liqs)
  · rw [if_pos hlong]
    have hnshort : ¬(0.65 : ℚ) < short_liq_volume liqs /
        (long_liq_volume liqs + short_liq_volume liqs) := by
      intro hc
      linarith
    refine ⟨⟨fun _ => hlong, fun _ => rfl⟩, ?_, ?_, rfl, ?_⟩
    · exact ⟨fun hc => absurd (Option.some.inj hc) (by decide),
        fun hc => absurd hc hnshort⟩
    · exact ⟨fun hc => absurd (Option.some.inj hc) (by decide),
        fun hc => absurd hlong (not_lt.mpr hc.1)⟩
    · intro l2 h0
      by_cases he : l2 = []
      · rw [if_pos he]
      · rw [if_neg he]
        exact if_pos h0
  · rw [if_neg hlong]
    by_cases hshort : (0.65 : ℚ) < short_liq_volume liqs /
        (long_liq_volume liqs + short_liq_volume liqs)
    · rw [if_pos hshort]
      refine ⟨?_, ⟨fun _ => hshort, fun _ => rfl⟩, ?_, rfl, ?_⟩
      · exact ⟨fun hc => absurd (Option.some.inj hc) (by decide),
          fun hc => absurd hc hlong⟩
      · exact ⟨fun hc => absurd (Option.some.inj hc) (by decide),
          fun hc => absurd hshort (not_lt.mpr hc.2)⟩
      · intro l2 h0
        by_cases he : l2 = []
        · rw [if_pos he]
        · rw [if_neg he]
          exact if_pos h0
    · rw [if_neg hshort]
      refine ⟨?_, ?_, ⟨fun _ => ⟨not_lt.mp hlong, not_lt.mp hshort⟩,
          fun _ => rfl⟩, rfl, ?_⟩
      · exact ⟨fun hc => absurd (Option.some.inj hc) (by decide),
          fun hc => absurd hc hlong⟩
      · exact ⟨fun hc => absurd (Option.some.inj hc) (by decide),
          fun hc => absurd hc hshort⟩
      · intro l2 h0
        by_cases he : l2 = []
        · rw [if_pos he]
        · rw [if_neg he]
          exact if_pos h0

/-- Witness for C8: a window with long volume 70 and short volume 30
(70% long dominance) yields bias `LONG`. -/
theorem liquidation_bias_spec_witness :
    get_liquidation_bias [⟨"SELL", 1, 70⟩, ⟨"BUY", 1, 30⟩] = some "LONG" := by
  have hfl : ([⟨"SELL", 1, 70⟩, ⟨"BUY", 1, 30⟩] : List Liq).filter
      (fun liq => liq.side == "SELL") = [⟨"SELL", 1, 70⟩] := rfl
  have hfs : ([⟨"SELL", 1, 70⟩, ⟨"BUY", 1, 30⟩] : List Liq).filter
      (fun liq => liq.side == "BUY") = [⟨"BUY", 1, 30⟩] := rfl
  have hl : long_liq_volume [⟨"SELL", 1, 70⟩, ⟨"BUY", 1, 30⟩] = 70 := by
    unfold long_liq_volume
    rw [hfl]
    norm_num
  have hs : short_liq_volume [⟨"SELL", 1, 70⟩, ⟨"BUY", 1, 30⟩] = 30 := by
    unfold short_liq_volume
    rw [hfs]
    norm_num
  exact (liquidation_bias_spec [⟨"SELL", 1, 70⟩, ⟨"BUY", 1, 30⟩]
    (by simp) (by rw [hl, hs]; norm_num)).1.mpr
    (by rw [hl, hs]; norm_num)

/-- C4: the calculator returns `none` or a position whose `risk_percent`
is at most `sl_max_percent`; and the stop-loss is the candle extremum
offset by ATR × (sl_atr_min + sl_atr_max)/2 unless that raw stop carries
risk above the cap, in which case it is `entry × (1 ± sl_max_percent/100)`. -/
theorem position_risk_cap_spec (cfg : StrategyConfig) (symbol : String)
    (direction : Dir) (candle : Candle) (atr : ℚ) (sweep_level : ℚ) :
    (∀ pd, calculate_entry_sl_tp cfg symbol direction candle atr sweep_level =
        some pd → pd.risk_percent ≤ cfg.sl_max_percent) ∧
    (∀ entry : ℚ,
      (|((candle.high + atr * ((cfg.sl_atr_min + cfg.sl_atr_max) / 2)) - entry)
          / entry| * 100 ≤ cfg.sl_max_percent →
        calculate_stop_loss cfg entry .SHORT candle atr =
          candle.high + atr * ((cfg.sl_atr_min + cfg.sl_atr_max) / 2)) ∧
      (cfg.sl_max_percent <
          |((candle.high + atr * ((cfg.sl_atr_min + cfg.sl_atr_max) / 2)) - entry)
            / entry| * 100 →
        calculate_stop_loss cfg entry .SHORT candle atr =
          entry * (1 + cfg.sl_max_percent / 100)) ∧
      (|((candle.low - atr * ((cfg.sl_atr_min + cfg.sl_atr_max) / 2)) - entry)
          / entry| * 100 ≤ cfg.sl_max_percent →
        calculate_stop_loss cfg entry .LONG candle atr =
          candle.low - atr * ((cfg.sl_atr_min + cfg.sl_atr_max) / 2)) ∧
      (cfg.sl_max_percent <
          |((candle.low - atr * ((cfg.sl_atr_min + cfg.sl_atr_max) / 2)) - entry)
            / entry| * 100 →
        calculate_stop_loss cfg entry .LONG candle atr =
          entry * (1 - cfg.sl_max_percent / 100))) := by
  constructor
  · intro pd h
    unfold calculate_entry_sl_tp at h
    by_cases hg : cfg.sl_max_percent <
        |calculate_entry candle direction sweep_level -
            calculate_stop_loss cfg (calculate_entry candle direction sweep_level)
              direction candle atr| /
          calculate_entry candle direction sweep_level * 100
    · rw [if_pos hg] at h
      exact Option.noConfusion h
    · rw [if_neg hg] at h
      obtain rfl := Option.some.inj h
      exact not_lt.mp hg
  · intro entry
    refine ⟨?_, ?_, ?_, ?_⟩
    · intro hle
      unfold calculate_stop_loss
      exact if_neg (not_lt.mpr hle)
    · intro hgt
      unfold calculate_stop_loss
      exact if_pos hgt
    · intro hle
      unfold calculate_stop_loss
      exact if_neg (not_lt.mpr hle)
    · intro hgt
      unfold calculate_stop_loss
      exact if_pos hgt

/-- Witness for C4: SHORT off a candle with open 100, high 110, close 101
and ATR 1 under the default config.  The raw stop (110.2) would carry
≈9.7% risk, so the clamp fires: the stop is 100.44 × 1.02 = 102.4488 and
the returned risk is exactly the 2% cap. -/
theorem position_risk_cap_spec_witness :
    calculate_entry_sl_tp defaultConfig "BTCUSDT" .SHORT ⟨100, 110, 95, 101, 5⟩
        1 110 =
      some ⟨"BTCUSDT", .SHORT, 100.44, 102.4488, 98.4312, 96.4224, 2, 2.0088⟩ ∧
    (⟨"BTCUSDT", .SHORT, 100.44, 102.4488, 98.4312, 96.4224, 2,
        2.0088⟩ : PositionData).risk_percent ≤ defaultConfig.sl_max_percent ∧
    calculate_stop_loss defaultConfig 100.44 .SHORT ⟨100, 110, 95, 101, 5⟩ 1 =
      100.44 * (1 + defaultConfig.sl_max_percent / 100) := by
  have hentry : calculate_entry ⟨100, 110, 95, 101, 5⟩ .SHORT 110 = 100.44 := by
    unfold calculate_entry
    norm_num [max_def, min_def]
  have hsl : calculate_stop_loss defaultConfig 100.44 .SHORT
      ⟨100, 110, 95, 101, 5⟩ 1 = 102.4488 := by
    have h := ((position_risk_cap_spec defaultConfig "BTCUSDT" .SHORT
      ⟨100, 110, 95, 101, 5⟩ 1 110).2 100.44).2.1
      (by norm_num [defaultConfig, abs_div, abs_le])
    rw [h]
    norm_num [defaultConfig]
  have hres : calculate_entry_sl_tp defaultConfig "BTCUSDT" .SHORT
      ⟨100, 110, 95, 101, 5⟩ 1 110 =
      some ⟨"BTCUSDT", .SHORT, 100.44, 102.4488, 98.4312, 96.4224, 2, 2.0088⟩ := by
    unfold calculate_entry_sl_tp
    rw [hentry]
    dsimp only
    rw [hsl]
    rw [if_neg (by norm_num [defaultConfig, abs_of_nonneg])]
    unfold calculate_take_profits
    norm_num [defaultConfig, max_def, min_def, abs_of_nonneg]
  refine ⟨hres, ?_, ?_⟩
  · exact (position_risk_cap_spec defaultConfig "BTCUSDT" .SHORT
      ⟨100, 110, 95, 101, 5⟩ 1 110).1 _ hres
  · have h := ((position_risk_cap_spec defaultConfig "BTCUSDT" .SHORT
      ⟨100, 110, 95, 101, 5⟩ 1 110).2 100.44).2.1
      (by norm_num [defaultConfig, abs_div, abs_le])
    rw [h]

theorem rr_gate_close (cfg : StrategyConfig) (z : Zone) (price atr : ℚ)
    (h : |z.price - price| / atr < cfg.min_rr_to_zone) :
    rr_bonus_gate cfg (some z) price atr = none := by
  unfold rr_bonus_gate
  dsimp only
  rw [if_pos h]

theorem rr_gate_far (cfg : StrategyConfig) (z : Zone) (price atr : ℚ)
    (h : ¬|z.price - price| / atr < cfg.min_rr_to_zone) :
    rr_bonus_gate cfg (some z) price atr =
      some (min ((|z.price - price| / atr - 1) * 2) 3) := by
  unfold rr_bonus_gate
  dsimp only
  rw [if_neg h]

theorem rr_gate_noz (cfg : StrategyConfig) (price atr : ℚ) :
    rr_bonus_gate cfg none price atr = some 3 := rfl

/-- C3 (amended): the scorer's blocking zone is the nearest *support* for
SHORT patterns and the nearest *resistance* for LONG patterns (the claim
states the opposite pairing); when that zone lies closer than
`min_rr_to_zone` ATR multiples of the close, the signal is rejected;
otherwise any returned signal carries `rr_bonus ≤ 3`, and with no blocking
zone the bonus is exactly 3. -/
theorem scorer_zone_gate_spec (cfg : StrategyConfig) (env : ScoreEnv)
    (recent : List (String × ℚ)) (now : ℚ) (p : Pattern) :
    get_blocking_zone env.zones p.close .SHORT =
      get_nearest_support env.zones p.close ∧
    get_blocking_zone env.zones p.close .LONG =
      get_nearest_resistance env.zones p.close ∧
    (∀ z, get_blocking_zone env.zones p.close p.direction = some z →
      |z.price - p.close| / p.atr < cfg.min_rr_to_zone →
      (score_signal cfg env recent now p).1 = none) ∧
    (∀ s, (score_signal cfg env recent now p).1 = some s →
      s.rr_bonus ≤ 3) ∧
    (∀ s, get_blocking_zone env.zones p.close p.direction = none →
      (score_signal cfg env recent now p).1 = some s →
      s.rr_bonus = 3) := by
  refine ⟨rfl, rfl, ?_, ?_, ?_⟩
  · intro z hz hclose
    unfold score_signal
    by_cases hca : env.can_add_position_to_cluster
    · rw [if_pos hca]
      dsimp only
      rw [hz, rr_gate_close cfg z p.close p.atr hclose]
    · rw [if_neg hca]
  · intro s hs
    unfold score_signal at hs
    by_cases hca : env.can_add_position_to_cluster
    · rw [if_pos hca] at hs
      dsimp only at hs
      cases hbz : get_blocking_zone env.zones p.close p.direction with
      | none =>
        rw [hbz, rr_gate_noz] at hs
        dsimp only at hs
        by_cases hdup : is_duplicate_signal recent p.symbol p.direction now 3
        · rw [if_pos hdup] at hs
          exact Option.noConfusion hs
        · rw [if_neg hdup] at hs
          obtain rfl := Option.some.inj hs
          norm_num
      | some z =>
        rw [hbz] at hs
        by_cases hrisk : |z.price - p.close| / p.atr < cfg.min_rr_to_zone
        · rw [rr_gate_close cfg z p.close p.atr hrisk] at hs
          exact Option.noConfusion hs
        · rw [rr_gate_far cfg z p.close p.atr hrisk] at hs
          dsimp only at hs
          by_cases hdup : is_duplicate_signal recent p.symbol p.direction now 3
          · rw [if_pos hdup] at hs
            exact Option.noConfusion hs
          · rw [if_neg hdup] at hs
            obtain rfl := Option.some.inj hs
            exact inf_le_right
    · rw [if_neg hca] at hs
      exact Option.noConfusion hs
  · intro s hbz hs
    unfold score_signal at hs
    by_cases hca : env.can_add_position_to_cluster
    · rw [if_pos hca] at hs
      dsimp only at hs
      rw [hbz, rr_gate_noz] at hs
      dsimp only at hs
      by_cases hdup : is_duplicate_signal recent p.symbol p.direction now 3
      · rw [if_pos hdup] at hs
        exact Option.noConfusion hs
      · rw [if_neg hdup] at hs
        obtain rfl := Option.some.inj hs
        rfl
    · rw [if_neg hca] at hs
      exact Option.noConfusion hs

/-- C3 counterexample: for this LONG pattern the nearest *support* lies
0.1 below the close — far inside the `min_rr_to_zone × ATR = 1.5` band, so
by the claim the signal must be rejected — yet `score_signal` accepts it:
the code fetches the nearest support for SHORT and the nearest resistance
for LONG, the opposite of the claim's pairing. -/
theorem scorer_zone_side_counterexample :
    (score_signal defaultConfig cexEnv [] 0 cexPattern).1 ≠ none ∧
    get_nearest_support cexEnv.zones cexPattern.close = some supZone ∧
    |supZone.price - cexPattern.close| / cexPattern.atr <
      defaultConfig.min_rr_to_zone := by
  have hres : get_nearest_resistance [supZone] (100 : ℚ) = none := by
    have hfil : ([supZone].filter fun z =>
        decide ((100 : ℚ) < z.price ∧ z.ztype = ZType.resistance)) = [] := by
      norm_num [List.filter, supZone]
    unfold get_nearest_resistance
    rw [hfil]
    rfl
  have hbz : get_blocking_zone [supZone] (100 : ℚ) .LONG = none := hres
  refine ⟨?_, ?_, ?_⟩
  · unfold score_signal
    simp only [cexEnv, cexPattern]
    rw [if_pos trivial]
    rw [hbz, rr_gate_noz]
    have hdup : is_duplicate_signal [] "TUSDT" .LONG 0 3 = false := rfl
    rw [hdup]
    simp
  · have hfil : ([supZone].filter fun z =>
        decide (z.price < (100 : ℚ) ∧ z.ztype = ZType.support)) = [supZone] := by
      norm_num [List.filter, supZone]
    show get_nearest_support [supZone] (100 : ℚ) = some supZone
    unfold get_nearest_support
    rw [hfil]
    rfl
  · norm_num [supZone, cexPattern, defaultConfig, abs_lt]

/-- Witness for C3 (amended): a SHORT pattern at close 100 with the
support zone 0.1 below is rejected (the blocking zone for SHORT *is* the
nearest support, and it sits inside the 1.5-ATR band). -/
theorem scorer_zone_gate_spec_witness :
    (score_signal defaultConfig ⟨true, 0, false, 0, [supZone]⟩ [] 0
      ⟨"TUSDT", .SHORT, 0.2, 1, 5, -1, 1, 100, 1⟩).1 = none := by
  have hfil : ([supZone].filter fun z =>
      decide (z.price < (100 : ℚ) ∧ z.ztype = ZType.support)) = [supZone] := by
    norm_num [List.filter, supZone]
  have hsup : get_blocking_zone
      (⟨true, 0, false, 0, [supZone]⟩ : ScoreEnv).zones
      (⟨"TUSDT", .SHORT, 0.2, 1, 5, -1, 1, 100, 1⟩ : Pattern).close
      (⟨"TUSDT", .SHORT, 0.2, 1, 5, -1, 1, 100, 1⟩ : Pattern).direction =
      some supZone := by
    show get_nearest_support [supZone] (100 : ℚ) = some supZone
    unfold get_nearest_support
    rw [hfil]
    rfl
  exact (scorer_zone_gate_spec defaultConfig ⟨true, 0, false, 0, [supZone]⟩
    [] 0 ⟨"TUSDT", .SHORT, 0.2, 1, 5, -1, 1, 100, 1⟩).2.2.1 supZone hsup
    (by norm_num [supZone, defaultConfig, abs_lt])

theorem lookupS_insertS (l : List (String × ℚ)) (k : String) (v : ℚ) :
    lookupS (insertS l k v) k = some v := by
  induction l with
  | nil => simp [insertS, lookupS]
  | cons hd t ih =>
    obtain ⟨k2, v2⟩ := hd
    by_cases h : k2 = k
    · simp [insertS, lookupS, h]
    · simp [insertS, lookupS, h, ih]

/-- A call of `score_signal` whose symbol+direction key is still inside
the cooldown window returns `none`, on every path. -/
theorem score_signal_none_of_dup (cfg : StrategyConfig) (env : ScoreEnv)
    (recent : List (String × ℚ)) (now : ℚ) (p : Pattern)
    (hdup : is_duplicate_signal recent p.symbol p.direction now 3 = true) :
    (score_signal cfg env recent now p).1 = none := by
  unfold score_signal
  by_cases hca : env.can_add_position_to_cluster
  · rw [if_pos hca]
    dsimp only
    cases rr_bonus_gate cfg (get_blocking_zone env.zones p.close p.direction)
        p.close p.atr with
    | none => rfl
    | some rr =>
      dsimp only
      rw [if_pos hdup]
  · rw [if_neg hca]

/-- C10: when `score_signal` accepts a pattern at time `now`, the
`_recent_signals` state it returns maps the symbol+direction key to `now`
— recorded before returning, independently of the caller's later
score-threshold check — and any second call for the same symbol and
direction within `3 × 15` minutes returns `none`, whatever its other
inputs. -/
theorem signal_cooldown_spec (cfg : StrategyConfig) (env env2 : ScoreEnv)
    (recent : List (String × ℚ)) (now now2 : ℚ) (p p2 : Pattern)
    (h1 : ((score_signal cfg env recent now p).1).isSome = true)
    (hsym : p2.symbol = p.symbol) (hdir : p2.direction = p.direction)
    (hcool : now2 - now < 3 * 15 * 60) :
    lookupS (score_signal cfg env recent now p).2
      (sigKey p.symbol p.direction) = some now ∧
    (score_signal cfg env2 (score_signal cfg env recent now p).2
      now2 p2).1 = none := by
  have hsnd : (score_signal cfg env recent now p).2 =
      insertS recent (sigKey p.symbol p.direction) now := by
    unfold score_signal at h1 ⊢
    by_cases hca : env.can_add_position_to_cluster
    · rw [if_pos hca] at h1 ⊢
      dsimp only at h1 ⊢
      cases hopt : rr_bonus_gate cfg
          (get_blocking_zone env.zones p.close p.direction) p.close p.atr with
      | none =>
        rw [hopt] at h1
        simp at h1
      | some rr =>
        rw [hopt] at h1
        dsimp only at h1 ⊢
        by_cases hdup : is_duplicate_signal recent p.symbol p.direction now 3
        · rw [if_pos hdup] at h1
          simp at h1
        · rw [if_neg hdup]
    · rw [if_neg hca] at h1
      simp at h1
  refine ⟨?_, ?_⟩
  · rw [hsnd]
    exact lookupS_insertS recent (sigKey p.symbol p.direction) now
  · apply score_signal_none_of_dup
    unfold is_duplicate_signal
    rw [hsym, hdir, hsnd, lookupS_insertS]
    simp only [decide_eq_true_eq]
    push_cast
    exact hcool

/-- Witness for C10: scoring `cdPattern` at time 0 records the key
`XUSDT_SHORT ↦ 0` even though its final score (3) is below the caller's
threshold, and re-scoring the same pattern 15 minutes later returns
`none`. -/
theorem signal_cooldown_spec_witness :
    lookupS (score_signal defaultConfig cdEnv [] 0 cdPattern).2
      (sigKey "XUSDT" .SHORT) = some 0 ∧
    (score_signal defaultConfig cdEnv
      (score_signal defaultConfig cdEnv [] 0 cdPattern).2 900 cdPattern).1 =
      none := by
  have h1 : ((score_signal defaultConfig cdEnv [] 0 cdPattern).1).isSome =
      true := by
    unfold score_signal
    simp only [cdEnv, cdPattern]
    rw [if_pos trivial]
    rw [show get_blocking_zone ([] : List Zone) (100 : ℚ) .SHORT = none
      from rfl, rr_gate_noz]
    have hdup : is_duplicate_signal [] "XUSDT" .SHORT 0 3 = false := rfl
    rw [hdup]
    simp
  exact signal_cooldown_spec defaultConfig cdEnv cdEnv [] 0 900 cdPattern
    cdPattern h1 rfl rfl (by norm_num)

/-- C9 counterexample: `get_last_candle` returns the stored reference
(address 0), and mutating the record through that reference changes the
store's contents — the read is a live reference, not a point-in-time
copy. -/
theorem store_alias_counterexample :
    get_last_candle aliasStore = some 0 ∧
    store_contents aliasStore = [⟨1, 2, 0, 1, 5⟩] ∧
    store_contents (mutate_candle aliasStore 0 ⟨1, 2, 0, 9, 5⟩) =
      [⟨1, 2, 0, 9, 5⟩] ∧
    (⟨1, 2, 0, 9, 5⟩ : Candle) ≠ ⟨1, 2, 0, 1, 5⟩ := by
  refine ⟨rfl, rfl, rfl, ?_⟩
  intro h
  exact absurd (congrArg Candle.close h) (by norm_num)

/-- C9 (amended): candle-list reads copy the container — appending to the
store never changes the record behind a previously returned reference,
and the returned list is exactly the stored reference list (the records
are shared, not copied); `get_last_candle` hands out the stored last
reference itself, so a mutation through a stored reference is visible in
a subsequent whole-store read. -/
theorem store_snapshot_spec (st : CandleStore) (c c2 : Candle) (a : ℕ)
    (ha : a < st.heap.length) :
    read_ref (add_candle st c) a = read_ref st a ∧
    get_candles st = st.store ∧
    get_last_candle st = st.store.getLast? ∧
    (a ∈ st.store → c2 ∈ store_contents (mutate_candle st a c2)) := by
  refine ⟨?_, rfl, rfl, ?_⟩
  · unfold read_ref add_candle
    simp [List.getD_eq_getElem?_getD, List.getElem?_append, ha]
  · intro hmem
    have heq : read_ref (mutate_candle st a c2) a = c2 := by
      unfold read_ref mutate_candle
      simp [List.getD_eq_getElem?_getD, List.getElem?_set_eq_of_lt c2 ha]
    exact List.mem_map.mpr ⟨a, hmem, heq⟩

/-- Witness for C9 (amended): in the one-candle store, appending a second
candle leaves the record behind address 0 unchanged, and mutating through
address 0 is visible in the store. -/
theorem store_snapshot_spec_witness :
    read_ref (add_candle aliasStore ⟨2, 3, 1, 2, 6⟩) 0 = read_ref aliasStore 0 ∧
    (⟨1, 2, 0, 9, 5⟩ : Candle) ∈
      store_contents (mutate_candle aliasStore 0 ⟨1, 2, 0, 9, 5⟩) := by
  have h := store_snapshot_spec aliasStore ⟨2, 3, 1, 2, 6⟩ ⟨1, 2, 0, 9, 5⟩ 0
    (by norm_num [aliasStore, add_candle])
  exact ⟨h.1, h.2.2.2 (by norm_num [aliasStore, add_candle])⟩

end SWB

